import Mathlib

/-! ## Definitions -/

/-- Integer floor of a rational: `⌊q⌋`, computed as `num / den`
(Euclidean division by the positive denominator). -/
def ratFloor (q : ℚ) : ℤ := q.num / (q.den : ℤ)

/-- Round a rational to the nearest integer, ties to even —
Python's `round` tie-breaking rule. -/
def roundHalfToEven (x : ℚ) : ℤ :=
  let f := ratFloor x
  if x - (f : ℚ) < 1/2 then f
  else if (1/2 : ℚ) < x - (f : ℚ) then f + 1
  else if f % 2 = 0 then f else f + 1

/-- Python's `round(x, 2)` on the rational model. -/
def round2 (x : ℚ) : ℚ := (roundHalfToEven (100 * x) : ℚ) / 100

/-- Python's `round(x, 1)` on the rational model. -/
def round1 (x : ℚ) : ℚ := (roundHalfToEven (10 * x) : ℚ) / 10

/-- `AnomalyDetector.calculate_z_score`: `(value - mean) / std` rounded to two
decimals, and exactly `0.0` when the baseline standard deviation is zero. -/
def calculate_z_score (value baseline_mean baseline_std : ℚ) : ℚ :=
  if baseline_std = 0 then 0
  else round2 ((value - baseline_mean) / baseline_std)

/-- The four severity labels returned by `AnomalyDetector.classify_anomaly`. -/
inductive Severity where
  | critical_anomaly
  | significant_anomaly
  | minor_anomaly
  | normal
deriving DecidableEq, Repr

/-- `AnomalyDetector.classify_anomaly`: strict absolute-value thresholds
3 / 2 / 1.5. -/
def classify_anomaly (z_score : ℚ) : Severity :=
  if 3 < |z_score| then .critical_anomaly
  else if 2 < |z_score| then .significant_anomaly
  else if 3/2 < |z_score| then .minor_anomaly
  else .normal

/-- Direction tag (`'above'` / `'below'`) attached to an anomaly entry. -/
inductive Direction where
  | above
  | below
deriving DecidableEq, Repr

/-- One entry of a `baselines` dict: `{'mean': ..., 'std': ...}` (the further
statistics — median, p95, ... — computed by `calculate_baselines` are never
read by the detector and are omitted). -/
structure DimBaseline where
  mean : ℚ
  std : ℚ
deriving DecidableEq, Repr

/-- The `daily_totals` sub-dict of a feature bundle
(`DailyAggregator._calculate_daily_totals`; the optional refund/profit
metrics, present only when the raw data has those columns, are omitted). -/
structure DailyTotals where
  total_revenue : ℚ
  total_units : ℤ
  transaction_count : ℕ
  line_items : ℕ
  unique_products : ℕ
  unique_categories : ℕ
  avg_ticket : ℚ
deriving DecidableEq, Repr

/-- One value of the `by_category` dict
(`DailyAggregator._calculate_by_category`).  `growth_vs_last_year` is
omitted: it needs calendar-year arithmetic (`date.replace(year=year-1)`)
outside the day-number date model and no claim concerns it. -/
structure CatMetrics where
  revenue : ℚ
  units : ℤ
  transactions : ℕ
  unique_products : ℕ
  avg_price_per_unit : ℚ
  growth_vs_yesterday : Option ℚ
deriving DecidableEq, Repr

/-- One value of the `by_location` dict
(`DailyAggregator._calculate_by_location`; the optional
`current_stock_units`, present only when an inventory table is supplied,
is omitted). -/
structure LocMetrics where
  revenue : ℚ
  units : ℤ
  traffic : ℕ
  avg_ticket : ℚ
  vs_network_avg : ℚ
deriving DecidableEq, Repr

/-- The part of a daily-features dict read by
`AnomalyDetector.detect_daily_anomalies`: `daily_totals` (whose truthiness it
checks with `.get`, modelled by `Option`), `by_category` and `by_location`. -/
structure DetectorInput where
  daily_totals : Option DailyTotals
  by_category : List (String × CatMetrics)
  by_location : List (String × LocMetrics)
deriving DecidableEq, Repr

/-- The baselines dict consumed by the detector: the `'total_revenue'` key
(whose presence is tested with `in`, modelled by `Option`) plus the
`by_category` / `by_location` dicts. -/
structure Baselines where
  total_revenue : Option DimBaseline
  by_category : List (String × DimBaseline)
  by_location : List (String × DimBaseline)
deriving DecidableEq, Repr

/-- An element of the `category_anomalies` list built by
`detect_daily_anomalies`. -/
structure CatAnomaly where
  category : String
  z_score : ℚ
  classification : Severity
  observed : ℚ
  baseline_mean : ℚ
  direction : Direction
deriving DecidableEq, Repr

/-- An element of the `location_anomalies` list built by
`detect_daily_anomalies`. -/
structure LocAnomaly where
  location : String
  z_score : ℚ
  classification : Severity
  observed : ℚ
  baseline_mean : ℚ
  direction : Direction
deriving DecidableEq, Repr

/-- The anomalies dict returned by `detect_daily_anomalies`. -/
structure Anomalies where
  has_anomaly : Bool
  anomaly_types : List String
  total_revenue_z : Option ℚ
  category_anomalies : List CatAnomaly
  location_anomalies : List LocAnomaly
  is_true_anomaly : Bool
deriving DecidableEq, Repr

/-- Membership of a classification in
`['critical_anomaly', 'significant_anomaly']`. -/
def isCriticalOrSignificant : Severity → Bool
  | .critical_anomaly => true
  | .significant_anomaly => true
  | _ => false

/-- The category loop of `detect_daily_anomalies`: for each category present
in both the day's features and the baselines, compute the revenue z-score and
record an entry when its classification is not `normal`. -/
def categoryAnomalies (byCat : List (String × CatMetrics))
    (base : List (String × DimBaseline)) : List CatAnomaly :=
  byCat.filterMap fun p =>
    match base.lookup p.1 with
    | none => none
    | some bl =>
      let z := calculate_z_score p.2.revenue bl.mean bl.std
      let cls := classify_anomaly z
      if cls = Severity.normal then none
      else some { category := p.1, z_score := z, classification := cls,
                  observed := p.2.revenue, baseline_mean := bl.mean,
                  direction := if 0 < z then Direction.above else Direction.below }

/-- The location loop of `detect_daily_anomalies` (same shape as the
category loop). -/
def locationAnomalies (byLoc : List (String × LocMetrics))
    (base : List (String × DimBaseline)) : List LocAnomaly :=
  byLoc.filterMap fun p =>
    match base.lookup p.1 with
    | none => none
    | some bl =>
      let z := calculate_z_score p.2.revenue bl.mean bl.std
      let cls := classify_anomaly z
      if cls = Severity.normal then none
      else some { location := p.1, z_score := z, classification := cls,
                  observed := p.2.revenue, baseline_mean := bl.mean,
                  direction := if 0 < z then Direction.above else Direction.below }

/-- `AnomalyDetector._check_multidimensional_anomaly`.  Note the Python
truthiness quirk: `anomalies.get('total_revenue_z') and abs(...) > 2` is falsy
when the stored z-score is `0.0`, hence the explicit `z ≠ 0` conjunct. -/
def check_multidimensional (a : Anomalies) : Bool :=
  let significant_category_anomalies :=
    a.category_anomalies.filter fun x => isCriticalOrSignificant x.classification
  let significant_location_anomalies :=
    a.location_anomalies.filter fun x => isCriticalOrSignificant x.classification
  let total_revenue_significant : Bool :=
    match a.total_revenue_z with
    | none => false
    | some z => decide (z ≠ 0) && decide (2 < |z|)
  if 2 ≤ significant_category_anomalies.length then true
  else if 2 ≤ significant_location_anomalies.length then true
  else if total_revenue_significant
      ∧ (1 ≤ significant_category_anomalies.length
         ∨ 1 ≤ significant_location_anomalies.length) then true
  else false

/-- `AnomalyDetector.detect_daily_anomalies`. -/
def detect_daily_anomalies (daily_features : DetectorInput) (baselines : Baselines) :
    Anomalies :=
  let totalZ : Option ℚ :=
    match baselines.total_revenue, daily_features.daily_totals with
    | some bl, some dt => some (calculate_z_score dt.total_revenue bl.mean bl.std)
    | _, _ => none
  let totalAnomalous : Bool :=
    match totalZ with
    | some z => decide (classify_anomaly z ≠ Severity.normal)
    | none => false
  let catAs :=
    if daily_features.by_category.isEmpty || baselines.by_category.isEmpty then []
    else categoryAnomalies daily_features.by_category baselines.by_category
  let locAs :=
    if daily_features.by_location.isEmpty || baselines.by_location.isEmpty then []
    else locationAnomalies daily_features.by_location baselines.by_location
  let pre : Anomalies :=
    { has_anomaly := totalAnomalous || !catAs.isEmpty || !locAs.isEmpty
      anomaly_types := if totalAnomalous then ["total_revenue"] else []
      total_revenue_z := totalZ
      category_anomalies := catAs
      location_anomalies := locAs
      is_true_anomaly := false }
  { pre with is_true_anomaly := check_multidimensional pre }

/-- The `is_true_anomaly` rule exactly as the specification words it, for
comparison with the implementation: clause (c) accepts a category- or
location-level anomaly of ANY severity (minor included). -/
def specTrueAnomalyRule (a : Anomalies) : Bool :=
  decide (2 ≤ (a.category_anomalies.filter fun x =>
      isCriticalOrSignificant x.classification).length) ||
  decide (2 ≤ (a.location_anomalies.filter fun x =>
      isCriticalOrSignificant x.classification).length) ||
  ((match a.total_revenue_z with
    | none => false
    | some z => decide (2 < |z|)) &&
   (!a.category_anomalies.isEmpty || !a.location_anomalies.isEmpty))

/-- Day features for the C1 counterexample: total revenue 2.5 and one
category ("Bakery") with revenue 1.8; no locations. -/
def c1Features : DetectorInput :=
  { daily_totals := some
      { total_revenue := 5/2, total_units := 0, transaction_count := 0,
        line_items := 0, unique_products := 0, unique_categories := 0,
        avg_ticket := 0 }
    by_category :=
      [("Bakery",
        { revenue := 9/5, units := 0, transactions := 0, unique_products := 0,
          avg_price_per_unit := 0, growth_vs_yesterday := none })]
    by_location := [] }

/-- Baselines for the C1 counterexample: mean 0 and std 1 everywhere, so the
z-scores are 2.5 (total: significant) and 1.8 (category: minor). -/
def c1Baselines : Baselines :=
  { total_revenue := some { mean := 0, std := 1 }
    by_category := [("Bakery", { mean := 0, std := 1 })]
    by_location := [] }

/-- Default `threshold_multiplier` of `detect_category_surge`. -/
def default_surge_threshold : ℚ := 2

/-- Default `threshold_multiplier` of `detect_category_drought`. -/
def default_drought_threshold : ℚ := 1/2

/-- Return value of `detect_category_surge`: either the bare
`{'is_surge': False}` dict produced when the baseline mean is zero, or the
full result dict. -/
inductive SurgeResult where
  | degenerate
  | result (category : String) (observed baseline_mean multiplier threshold : ℚ)
      (is_surge : Bool)
deriving DecidableEq, Repr

/-- The `'is_surge'` entry of either result shape. -/
def SurgeResult.is_surge : SurgeResult → Bool
  | .degenerate => false
  | .result _ _ _ _ _ b => b

/-- Return value of `detect_category_drought`, analogous to `SurgeResult`. -/
inductive DroughtResult where
  | degenerate
  | result (category : String) (observed baseline_mean multiplier threshold : ℚ)
      (is_drought : Bool)
deriving DecidableEq, Repr

/-- The `'is_drought'` entry of either result shape. -/
def DroughtResult.is_drought : DroughtResult → Bool
  | .degenerate => false
  | .result _ _ _ _ _ b => b

/-- `AnomalyDetector.detect_category_surge`: ratio-to-baseline-mean test
(`observed / mean >= threshold`, default threshold 2.0), with an immediate
`{'is_surge': False}` return — before any division — when the baseline mean
is zero.  The reported multiplier is rounded to two decimals but the
comparison uses the exact ratio. -/
def detect_category_surge (category : String) (observed_value : ℚ)
    (baseline : DimBaseline) (threshold_multiplier : ℚ) : SurgeResult :=
  let baseline_mean := baseline.mean
  if baseline_mean = 0 then .degenerate
  else
    let multiplier := observed_value / baseline_mean
    .result category observed_value baseline_mean (round2 multiplier)
      threshold_multiplier (decide (threshold_multiplier ≤ multiplier))

/-- `AnomalyDetector.detect_category_drought`: symmetric to the surge test,
`observed / mean <= threshold` with default threshold 0.5. -/
def detect_category_drought (category : String) (observed_value : ℚ)
    (baseline : DimBaseline) (threshold_multiplier : ℚ) : DroughtResult :=
  let baseline_mean := baseline.mean
  if baseline_mean = 0 then .degenerate
  else
    let multiplier := observed_value / baseline_mean
    .result category observed_value baseline_mean (round2 multiplier)
      threshold_multiplier (decide (multiplier ≤ threshold_multiplier))

/-- One transaction row of the sales table, with the columns
`DailyAggregator` reads: `Sale Date` (as a day number), `Sale ID`,
`Branch Name`, `Dept Fullname`, `Product`, `Qty Sold`, `Turnover`.
The optional `OrderList` (supplier) column feeds only `_calculate_by_supplier`,
which no claim concerns, and is omitted. -/
structure Row where
  saleDate : ℤ
  saleId : ℕ
  branch : String
  dept : String
  product : String
  qty : ℤ
  turnover : ℚ
deriving DecidableEq, Repr

/-- The raw sales table. -/
abbrev SalesData := List Row

/-- The rows of a given day (`sales_df[sales_df['date'] == target_date]`). -/
def dayRows (df : SalesData) (d : ℤ) : List Row :=
  df.filter fun r => decide (r.saleDate = d)

/-- Arithmetic mean of a pandas series (`.mean()`), used only on nonempty
series. -/
def mean (l : List ℚ) : ℚ := l.sum / (l.length : ℚ)

/-- Median of a pandas series (`.median()`): middle element of the sorted
values, or the average of the two middle elements for even length; used only
on nonempty series. -/
def median (l : List ℚ) : ℚ :=
  let s := l.mergeSort (fun a b => decide (a ≤ b))
  if l.length % 2 = 1 then s.getD (l.length / 2) 0
  else (s.getD (l.length / 2 - 1) 0 + s.getD (l.length / 2) 0) / 2

/-- The distinct dates of a set of rows — the index of
`rows.groupby('date')`.  (`dedup` lists each distinct date exactly once;
pandas orders the group keys, but every use below is order-insensitive.) -/
def distinctDates (rows : List Row) : List ℤ :=
  (rows.map fun r => r.saleDate).dedup

/-- Total turnover of the given rows on one date — one entry of
`rows.groupby('date')['Turnover'].sum()`. -/
def dateRevenue (rows : List Row) (a : ℤ) : ℚ :=
  ((rows.filter fun r => decide (r.saleDate = a)).map fun r => r.turnover).sum

/-- The per-date revenue series `rows.groupby('date')['Turnover'].sum()`. -/
def dailyRevenues (rows : List Row) : List ℚ :=
  (distinctDates rows).map (dateRevenue rows)

/-- `DailyAggregator._calculate_daily_totals`. -/
def calculate_daily_totals (rows : List Row) : DailyTotals :=
  let total_revenue := (rows.map fun r => r.turnover).sum
  let transaction_count := ((rows.map fun r => r.saleId).dedup).length
  { total_revenue := total_revenue
    total_units := (rows.map fun r => r.qty).sum
    transaction_count := transaction_count
    line_items := rows.length
    unique_products := ((rows.map fun r => r.product).dedup).length
    unique_categories := ((rows.map fun r => r.dept).dedup).length
    avg_ticket :=
      if 0 < transaction_count then round2 (total_revenue / (transaction_count : ℚ))
      else 0 }

/-- `DailyAggregator._get_category_revenue`: total turnover of one category
on one date over the whole table (the `_cache` memoisation in the source is
pure memoisation and does not change the value). -/
def get_category_revenue (df : SalesData) (category : String) (d : ℤ) : ℚ :=
  ((df.filter fun r => decide (r.saleDate = d) && decide (r.dept = category)).map
    fun r => r.turnover).sum

/-- The per-category metrics of `DailyAggregator._calculate_by_category` for
one category. -/
def categoryMetrics (df : SalesData) (rows : List Row) (target_date : ℤ)
    (c : String) : CatMetrics :=
  let catRows := rows.filter fun r => decide (r.dept = c)
  let revenue := (catRows.map fun r => r.turnover).sum
  let qty := (catRows.map fun r => r.qty).sum
  let yesterday_revenue := get_category_revenue df c (target_date - 1)
  { revenue := revenue
    units := qty
    transactions := ((catRows.map fun r => r.saleId).dedup).length
    unique_products := ((catRows.map fun r => r.product).dedup).length
    avg_price_per_unit := round2 (if 0 < qty then revenue / (qty : ℚ) else 0)
    growth_vs_yesterday :=
      if 0 < yesterday_revenue then
        some (round1 ((revenue - yesterday_revenue) / yesterday_revenue * 100))
      else none }

/-- `DailyAggregator._calculate_by_category`: one entry per distinct category
of the day's rows. -/
def calculate_by_category (df : SalesData) (rows : List Row) (target_date : ℤ) :
    List (String × CatMetrics) :=
  ((rows.map fun r => r.dept).dedup).map fun c =>
    (c, categoryMetrics df rows target_date c)

/-- `DailyAggregator._calculate_by_location`: one entry per distinct branch
of the day's rows, with performance measured against the network-average
revenue of the day. -/
def calculate_by_location (rows : List Row) : List (String × LocMetrics) :=
  let locs := (rows.map fun r => r.branch).dedup
  let total_revenue := (rows.map fun r => r.turnover).sum
  let network_avg_revenue :=
    if 0 < locs.length then total_revenue / (locs.length : ℚ) else 0
  locs.map fun lc =>
    let locRows := rows.filter fun r => decide (r.branch = lc)
    let revenue := (locRows.map fun r => r.turnover).sum
    let traffic := ((locRows.map fun r => r.saleId).dedup).length
    (lc,
      { revenue := revenue
        units := (locRows.map fun r => r.qty).sum
        traffic := traffic
        avg_ticket := round2 (if 0 < traffic then revenue / (traffic : ℚ) else 0)
        vs_network_avg :=
          if 0 < network_avg_revenue then
            round1 ((revenue - network_avg_revenue) / network_avg_revenue * 100)
          else 0 })

/-- The `historical_context` sub-dict
(`DailyAggregator._calculate_historical_context`), with the Python keys
`7_day_average`, `7_day_median`, `30_day_average`, `30_day_median`,
`weekday_typical`.  Each field is `none` when its key is absent.  The
`same_day_last_year` lookup needs calendar-year arithmetic
(`date.replace(year=year-1)`) outside the day-number date model; no claim
concerns it and it is omitted. -/
structure HistoricalContext where
  sevenDayAverage : Option ℚ
  sevenDayMedian : Option ℚ
  thirtyDayAverage : Option ℚ
  thirtyDayMedian : Option ℚ
  weekdayTypical : Option ℚ
deriving DecidableEq, Repr

/-- `DailyAggregator._calculate_historical_context`: trailing windows are
selected by strict inequalities on both sides
(`date > target−7 and date < target`, similarly for 30 and 56 days, the last
also restricted to the target's weekday), and each sub-result is omitted when
its filtered data is empty. -/
def historical_context (df : SalesData) (d : ℤ) : HistoricalContext :=
  let week_data := df.filter fun r =>
    decide (d - 7 < r.saleDate) && decide (r.saleDate < d)
  let month_data := df.filter fun r =>
    decide (d - 30 < r.saleDate) && decide (r.saleDate < d)
  let weekday_data := df.filter fun r =>
    decide (d - 56 < r.saleDate) && decide (r.saleDate < d) &&
      decide (r.saleDate % 7 = d % 7)
  { sevenDayAverage :=
      if week_data.isEmpty then none else some (mean (dailyRevenues week_data))
    sevenDayMedian :=
      if week_data.isEmpty then none else some (median (dailyRevenues week_data))
    thirtyDayAverage :=
      if month_data.isEmpty then none else some (mean (dailyRevenues month_data))
    thirtyDayMedian :=
      if month_data.isEmpty then none else some (median (dailyRevenues month_data))
    weekdayTypical :=
      if weekday_data.isEmpty then none
      else some (median (dailyRevenues weekday_data)) }

/-- A daily feature bundle, the dict built by `DailyAggregator.aggregate_day`
(the wall-clock `execution_time`, the supplier breakdown and the empty
`anomalies` placeholder are omitted: no claim concerns them). -/
structure FeatureBundle where
  date : ℤ
  daily_totals : DailyTotals
  by_category : List (String × CatMetrics)
  by_location : List (String × LocMetrics)
  historical_context : HistoricalContext
deriving DecidableEq, Repr

/-- The bundle construction of `aggregate_day` (everything after the
empty-day guard). -/
def buildFeatures (df : SalesData) (d : ℤ) : FeatureBundle :=
  let day_data := dayRows df d
  { date := d
    daily_totals := calculate_daily_totals day_data
    by_category := calculate_by_category df day_data d
    by_location := calculate_by_location day_data
    historical_context := historical_context df d }

/-- `DailyAggregator.aggregate_day`: `None` (the "no data" signal) when the
target date has no rows, otherwise the feature bundle. -/
def aggregate_day (df : SalesData) (d : ℤ) : Option FeatureBundle :=
  if (dayRows df d).isEmpty then none else some (buildFeatures df d)

/-- The `while current_date <= end_date` loop of `aggregate_date_range`,
with the (finite) number of remaining iterations made explicit. -/
def aggregateRangeGo (df : SalesData) : ℕ → ℤ → List FeatureBundle
  | 0, _ => []
  | n + 1, cur =>
    match aggregate_day df cur with
    | some f => f :: aggregateRangeGo df n (cur + 1)
    | none => aggregateRangeGo df n (cur + 1)

/-- `DailyAggregator.aggregate_date_range` over `[start_date, end_date]`
(both inclusive; empty when `start_date > end_date`). -/
def aggregate_date_range (df : SalesData) (start_date end_date : ℤ) :
    List FeatureBundle :=
  aggregateRangeGo df (end_date + 1 - start_date).toNat start_date

/-- The ascending list of the dates from `s` to `e`, both inclusive. -/
def rangeDates (s e : ℤ) : List ℤ :=
  (List.range (e + 1 - s).toNat).map fun i : ℕ => s + (i : ℤ)

/-- Concrete two-row sales table (two categories on day 0) for the C5
witness. -/
def c5Df : SalesData :=
  [{ saleDate := 0, saleId := 1, branch := "Main", dept := "Bakery",
     product := "Bread", qty := 2, turnover := 5 },
   { saleDate := 0, saleId := 2, branch := "Main", dept := "Dairy",
     product := "Milk", qty := 1, turnover := 3 }]

/-- The on-disk state managed by `FeatureCache`. -/
structure CacheState where
  days : List (ℤ × FeatureBundle)
  baselines : Option Baselines
  otherFiles : List String
deriving DecidableEq, Repr

/-- A cache directory with no files. -/
def emptyCache : CacheState :=
  { days := [], baselines := none, otherFiles := [] }

/-- `FeatureCache.save_daily_features`: write (create or overwrite) the
document keyed by `target_date`. -/
def save_daily_features (st : CacheState) (features : FeatureBundle)
    (target_date : ℤ) : CacheState :=
  { st with days := (target_date, features) ::
      st.days.filter fun e => decide (e.1 ≠ target_date) }

/-- `FeatureCache.load_daily_features`: the stored document, or `None` when
the date's file does not exist. -/
def load_daily_features (st : CacheState) (target_date : ℤ) :
    Option FeatureBundle :=
  (st.days.find? fun e => decide (e.1 = target_date)).map fun e => e.2

/-- `FeatureCache.has_features`: existence check for the date's file. -/
def has_features (st : CacheState) (target_date : ℤ) : Bool :=
  (st.days.find? fun e => decide (e.1 = target_date)).isSome

/-- `FeatureCache.delete_old_cache`: delete every day-keyed document whose
date is strictly before `today − keep_days`, skip `baselines.json` and
unparsable stems, and return the number of files deleted. -/
def delete_old_cache (st : CacheState) (today : ℤ) (keep_days : ℤ) :
    CacheState × ℕ :=
  let cutoff_date := today - keep_days
  ({ st with days := st.days.filter fun e => decide (¬ e.1 < cutoff_date) },
   (st.days.filter fun e => decide (e.1 < cutoff_date)).length)

/-- Concrete bundle used by the cache witnesses. -/
def witnessBundle : FeatureBundle := buildFeatures c5Df 0

/-- Concrete cache state for the C7 witness: entries dated 10, 9 and 3, no
baselines document, one unparsable file. -/
def c7State : CacheState :=
  { days := [(10, witnessBundle), (9, witnessBundle), (3, witnessBundle)]
    baselines := none
    otherFiles := ["notes"] }

/-- Replay a list of `(date, bundle)` writes against a cache state. -/
def applyPuts (st : CacheState) (ops : List (ℤ × FeatureBundle)) : CacheState :=
  ops.foldl (fun acc op => save_daily_features acc op.2 op.1) st

/-- Whether the full table has any row on date `a`. -/
def hasData (df : SalesData) (a : ℤ) : Bool := !(dayRows df a).isEmpty

/-- The per-date revenue series over an explicit candidate-date list:
the dates of the list that have data, each mapped to its daily revenue. -/
def windowRevenues (df : SalesData) (dates : List ℤ) : List ℚ :=
  (dates.filter fun a => hasData df a).map fun a => dateRevenue df a

/-- Historical context computed, as the specification describes it, from
explicit candidate-date lists for the three trailing windows (each field
omitted when its window has no data). -/
def specContextOn (df : SalesData) (d7 d30 dw : List ℤ) : HistoricalContext :=
  let w7 := windowRevenues df d7
  let w30 := windowRevenues df d30
  let ww := windowRevenues df dw
  { sevenDayAverage := if w7.isEmpty then none else some (mean w7)
    sevenDayMedian := if w7.isEmpty then none else some (median w7)
    thirtyDayAverage := if w30.isEmpty then none else some (mean w30)
    thirtyDayMedian := if w30.isEmpty then none else some (median w30)
    weekdayTypical := if ww.isEmpty then none else some (median ww) }

/-- The historical context exactly as the claim words it: the 7 dates
`d−7 .. d−1`, the 30 dates `d−30 .. d−1`, and the same-weekday dates within
the 56 days strictly before `d`. -/
def claimHistoricalContext (df : SalesData) (d : ℤ) : HistoricalContext :=
  specContextOn df (rangeDates (d - 7) (d - 1)) (rangeDates (d - 30) (d - 1))
    ((rangeDates (d - 56) (d - 1)).filter fun a => decide (a % 7 = d % 7))

/-- The historical context with the windows the code actually uses: the
6 dates `d−6 .. d−1`, the 29 dates `d−29 .. d−1`, and the same-weekday dates
within the 55 days strictly before `d`. -/
def amendedHistoricalContext (df : SalesData) (d : ℤ) : HistoricalContext :=
  specContextOn df (rangeDates (d - 6) (d - 1)) (rangeDates (d - 29) (d - 1))
    ((rangeDates (d - 55) (d - 1)).filter fun a => decide (a % 7 = d % 7))

/-- One sale exactly 7 days before day 0 — inside the claim's 7-day window
but outside the code's (strict `>` on both ends). -/
def c2Df : SalesData :=
  [{ saleDate := -7, saleId := 1, branch := "Main", dept := "Bakery",
     product := "Bread", qty := 1, turnover := 100 }]

/-- A Python float as the detector observes it: NaN or a finite value. -/
inductive PFloat where
  | nan : PFloat
  | num : ℚ → PFloat
deriving DecidableEq, Repr

/-- IEEE equality test `x == y`: false whenever either side is NaN. -/
def PFloat.beq : PFloat → PFloat → Bool
  | .num a, .num b => decide (a = b)
  | _, _ => false

/-- IEEE subtraction: NaN-propagating. -/
def PFloat.sub : PFloat → PFloat → PFloat
  | .num a, .num b => .num (a - b)
  | _, _ => .nan

/-- IEEE division: NaN-propagating.  Division of a finite value by zero is
unreachable behind the detector's `std == 0` guard (in Python it would raise
`ZeroDivisionError`); the model maps it to NaN. -/
def PFloat.div : PFloat → PFloat → PFloat
  | .num a, .num b => if b = 0 then .nan else .num (a / b)
  | _, _ => .nan

/-- `abs`: NaN-propagating. -/
def PFloat.abs : PFloat → PFloat
  | .num a => .num |a|
  | .nan => .nan

/-- IEEE `>` against a rational constant: false when NaN. -/
def PFloat.gt : PFloat → ℚ → Bool
  | .num a, c => decide (c < a)
  | .nan, _ => false

/-- Python truthiness of a float: `0.0` is falsy; NaN is truthy. -/
def PFloat.truthy : PFloat → Bool
  | .num a => decide (a ≠ 0)
  | .nan => true

/-- `round(x, 2)`: NaN-propagating. -/
def PFloat.round2F : PFloat → PFloat
  | .num a => .num (round2 a)
  | .nan => .nan

/-- `calculate_z_score` on the float model: the guard `std == 0` is IEEE
equality, which a NaN std fails, so a NaN std flows into the division. -/
def calculate_z_score_float (value baseline_mean baseline_std : PFloat) :
    PFloat :=
  if PFloat.beq baseline_std (.num 0) then .num 0
  else PFloat.round2F (PFloat.div (PFloat.sub value baseline_mean) baseline_std)

/-- `classify_anomaly` on the float model: `abs(NaN)` is NaN and every
threshold comparison with NaN is false, so a NaN z-score falls through to
`normal`. -/
def classify_anomaly_float (z_score : PFloat) : Severity :=
  if (PFloat.abs z_score).gt 3 then .critical_anomaly
  else if (PFloat.abs z_score).gt 2 then .significant_anomaly
  else if (PFloat.abs z_score).gt (3/2) then .minor_anomaly
  else .normal

/-- Sample variance (ddof = 1) of a series, used only through `seriesStd`
below. -/
def sampleVariance (xs : List ℚ) : ℚ :=
  ((xs.map fun x => (x - mean xs) ^ 2).sum) / ((xs.length : ℚ) - 1)

/-- Pandas `Series.std()` (sample standard deviation, ddof = 1) as applied by
`calculate_baselines` to a per-date revenue series: NaN when the series has
fewer than two observations.  (For two or more observations the library value
is the square root of the sample variance; the model carries the variance
itself, which preserves exactly the NaN / zero / positive trichotomy the
detector's `std == 0` guard and comparisons can observe, √ being strictly
monotone with √0 = 0.) -/
def seriesStd (xs : List ℚ) : PFloat :=
  if xs.length ≤ 1 then .nan
  else .num (sampleVariance xs)

/-- A `(mean, std)` baseline entry in the float model. -/
structure DimBaselineF where
  mean : PFloat
  std : PFloat
deriving DecidableEq, Repr

/-- The `(mean, std)` pair `calculate_baselines` records for one dimension
from that dimension's rows inside the baseline window: group by date, sum
turnover, then mean and sample std of the per-date series. -/
def baselineOfRows (rows : List Row) : DimBaselineF :=
  { mean := .num (mean (dailyRevenues rows))
    std := seriesStd (dailyRevenues rows) }

/-- Baselines dict in the float model. -/
structure BaselinesF where
  total_revenue : Option DimBaselineF
  by_category : List (String × DimBaselineF)
  by_location : List (String × DimBaselineF)
deriving DecidableEq, Repr

/-- A category-anomaly entry in the float model. -/
structure CatAnomalyF where
  category : String
  z_score : PFloat
  classification : Severity
  observed : ℚ
  baseline_mean : PFloat
  direction : Direction
deriving DecidableEq, Repr

/-- A location-anomaly entry in the float model. -/
structure LocAnomalyF where
  location : String
  z_score : PFloat
  classification : Severity
  observed : ℚ
  baseline_mean : PFloat
  direction : Direction
deriving DecidableEq, Repr

/-- The anomalies dict in the float model. -/
structure AnomaliesF where
  has_anomaly : Bool
  anomaly_types : List String
  total_revenue_z : Option PFloat
  category_anomalies : List CatAnomalyF
  location_anomalies : List LocAnomalyF
  is_true_anomaly : Bool
deriving DecidableEq, Repr

/-- The category loop of `detect_daily_anomalies`, float model. -/
def categoryAnomaliesF (byCat : List (String × CatMetrics))
    (base : List (String × DimBaselineF)) : List CatAnomalyF :=
  byCat.filterMap fun p =>
    match base.lookup p.1 with
    | none => none
    | some bl =>
      let z := calculate_z_score_float (.num p.2.revenue) bl.mean bl.std
      let cls := classify_anomaly_float z
      if cls = Severity.normal then none
      else some { category := p.1, z_score := z, classification := cls,
                  observed := p.2.revenue, baseline_mean := bl.mean,
                  direction := if z.gt 0 then Direction.above else Direction.below }

/-- The location loop of `detect_daily_anomalies`, float model. -/
def locationAnomaliesF (byLoc : List (String × LocMetrics))
    (base : List (String × DimBaselineF)) : List LocAnomalyF :=
  byLoc.filterMap fun p =>
    match base.lookup p.1 with
    | none => none
    | some bl =>
      let z := calculate_z_score_float (.num p.2.revenue) bl.mean bl.std
      let cls := classify_anomaly_float z
      if cls = Severity.normal then none
      else some { location := p.1, z_score := z, classification := cls,
                  observed := p.2.revenue, baseline_mean := bl.mean,
                  direction := if z.gt 0 then Direction.above else Direction.below }

/-- `_check_multidimensional_anomaly`, float model (NaN is truthy in Python
but `abs(NaN) > 2` is false). -/
def check_multidimensional_float (a : AnomaliesF) : Bool :=
  let significant_category_anomalies :=
    a.category_anomalies.filter fun x => isCriticalOrSignificant x.classification
  let significant_location_anomalies :=
    a.location_anomalies.filter fun x => isCriticalOrSignificant x.classification
  let total_revenue_significant : Bool :=
    match a.total_revenue_z with
    | none => false
    | some z => z.truthy && (PFloat.abs z).gt 2
  if 2 ≤ significant_category_anomalies.length then true
  else if 2 ≤ significant_location_anomalies.length then true
  else if total_revenue_significant
      ∧ (1 ≤ significant_category_anomalies.length
         ∨ 1 ≤ significant_location_anomalies.length) then true
  else false

/-- `detect_daily_anomalies`, float model. -/
def detect_daily_anomalies_float (daily_features : DetectorInput)
    (baselines : BaselinesF) : AnomaliesF :=
  let totalZ : Option PFloat :=
    match baselines.total_revenue, daily_features.daily_totals with
    | some bl, some dt =>
        some (calculate_z_score_float (.num dt.total_revenue) bl.mean bl.std)
    | _, _ => none
  let totalAnomalous : Bool :=
    match totalZ with
    | some z => decide (classify_anomaly_float z ≠ Severity.normal)
    | none => false
  let catAs :=
    if daily_features.by_category.isEmpty || baselines.by_category.isEmpty then []
    else categoryAnomaliesF daily_features.by_category baselines.by_category
  let locAs :=
    if daily_features.by_location.isEmpty || baselines.by_location.isEmpty then []
    else locationAnomaliesF daily_features.by_location baselines.by_location
  let pre : AnomaliesF :=
    { has_anomaly := totalAnomalous || !catAs.isEmpty || !locAs.isEmpty
      anomaly_types := if totalAnomalous then ["total_revenue"] else []
      total_revenue_z := totalZ
      category_anomalies := catAs
      location_anomalies := locAs
      is_true_anomaly := false }
  { pre with is_true_anomaly := check_multidimensional_float pre }

/-- Two sales on the same single date, for the C10 witness: the baseline
window series has one observation. -/
def c10Rows : List Row :=
  [{ saleDate := 5, saleId := 1, branch := "Main", dept := "Bakery",
     product := "Bread", qty := 1, turnover := 10 },
   { saleDate := 5, saleId := 2, branch := "Main", dept := "Bakery",
     product := "Roll", qty := 1, turnover := 20 }]

/-- Day features for the C10 witness. -/
def c10Features : DetectorInput :=
  { daily_totals := some
      { total_revenue := 500, total_units := 0, transaction_count := 0,
        line_items := 0, unique_products := 0, unique_categories := 0,
        avg_ticket := 0 }
    by_category :=
      [("Bakery",
        { revenue := 500, units := 0, transactions := 0, unique_products := 0,
          avg_price_per_unit := 0, growth_vs_yesterday := none })]
    by_location := [] }

/-- Baselines with NaN standard deviations everywhere, for the C10 witness. -/
def c10Baselines : BaselinesF :=
  { total_revenue := some { mean := .num 0, std := .nan }
    by_category := [("Bakery", { mean := .num 0, std := .nan })]
    by_location := [] }

/-! ## Theorems -/

lemma ratFloor_intCast (n : ℤ) : ratFloor (n : ℚ) = n := by
  simp [ratFloor, Rat.num_intCast, Rat.den_intCast]

lemma roundHalfToEven_intCast (n : ℤ) : roundHalfToEven (n : ℚ) = n := by
  simp [roundHalfToEven, ratFloor_intCast]

lemma round2_int_div (j : ℤ) : round2 ((j : ℚ) / 100) = (j : ℚ) / 100 := by
  have h : (100 : ℚ) * ((j : ℚ) / 100) = (j : ℚ) := by ring
  rw [round2, h, roundHalfToEven_intCast]

lemma abs_gt_two_ne_zero {z : ℚ} (h : 2 < |z|) : z ≠ 0 := by
  intro h0
  rw [h0] at h
  simp at h
  linarith

lemma check_multidimensional_iff (a : Anomalies) :
    check_multidimensional a = true ↔
      2 ≤ (a.category_anomalies.filter fun x =>
            isCriticalOrSignificant x.classification).length
      ∨ 2 ≤ (a.location_anomalies.filter fun x =>
            isCriticalOrSignificant x.classification).length
      ∨ ((∃ z, a.total_revenue_z = some z ∧ 2 < |z|)
          ∧ (1 ≤ (a.category_anomalies.filter fun x =>
                isCriticalOrSignificant x.classification).length
             ∨ 1 ≤ (a.location_anomalies.filter fun x =>
                isCriticalOrSignificant x.classification).length)) := by
  unfold check_multidimensional
  rcases hz : a.total_revenue_z with _ | z <;>
    simp only [hz] <;>
    split_ifs with h1 h2 h3 <;>
    simp_all
  intro h
  exact h3 (abs_gt_two_ne_zero h) h

lemma detect_is_true_anomaly (f : DetectorInput) (b : Baselines) :
    (detect_daily_anomalies f b).is_true_anomaly
      = check_multidimensional (detect_daily_anomalies f b) := rfl

/-- Evaluation of the detector on the C1 counterexample inputs: the day
carries a significant total-revenue z-score of 2.5 and a single minor
category anomaly (z = 1.8), and `is_true_anomaly` comes out false. -/
lemma c1_eval :
    detect_daily_anomalies c1Features c1Baselines =
      { has_anomaly := true
        anomaly_types := ["total_revenue"]
        total_revenue_z := some (5/2)
        category_anomalies :=
          [{ category := "Bakery", z_score := 9/5,
             classification := Severity.minor_anomaly, observed := 9/5,
             baseline_mean := 0, direction := Direction.above }]
        location_anomalies := []
        is_true_anomaly := false } := by
  have habs52 : |(5/2 : ℚ)| = 5/2 := abs_of_pos (by norm_num)
  have habs95 : |(9/5 : ℚ)| = 9/5 := abs_of_pos (by norm_num)
  have hz1 : calculate_z_score (5/2) 0 1 = 5/2 := by
    norm_num [calculate_z_score, round2, roundHalfToEven, ratFloor]
  have hz2 : calculate_z_score (9/5) 0 1 = 9/5 := by
    norm_num [calculate_z_score, round2, roundHalfToEven, ratFloor]
  have hc1 : classify_anomaly (5/2) = Severity.significant_anomaly := by
    simp only [classify_anomaly, habs52]
    norm_num
  have hc2 : classify_anomaly (9/5) = Severity.minor_anomaly := by
    simp only [classify_anomaly, habs95]
    norm_num
  simp only [detect_daily_anomalies, c1Features, c1Baselines, categoryAnomalies,
    locationAnomalies, List.filterMap_cons, List.filterMap_nil, List.lookup,
    hz1, hz2, hc1, hc2]
  have hne1 : Severity.significant_anomaly ≠ Severity.normal := by decide
  have hne2 : Severity.minor_anomaly ≠ Severity.normal := by decide
  norm_num [check_multidimensional, isCriticalOrSignificant, habs52, hz1, hz2,
    hc1, hc2, hne1, hne2]

/-- C1, counterexample: on a day whose total-revenue z-score is 2.5 (so
`|z| > 2`) and whose only category anomaly is classified `minor`, the spec's
rule (clause (c) accepting any severity) says `is_true_anomaly` is true, but
`detect_daily_anomalies` returns false. -/
theorem c1_counterexample :
    specTrueAnomalyRule (detect_daily_anomalies c1Features c1Baselines) = true ∧
    (detect_daily_anomalies c1Features c1Baselines).is_true_anomaly = false := by
  rw [c1_eval]
  have habs52 : (2 : ℚ) < |(5/2 : ℚ)| := by
    rw [abs_of_pos (by norm_num : (0:ℚ) < 5/2)]
    norm_num
  constructor
  · simp [specTrueAnomalyRule, isCriticalOrSignificant, habs52]
  · rfl

/-- C1 (amended): for every anomaly result produced by
`detect_daily_anomalies`, `is_true_anomaly` is true if and only if (a) at
least 2 category-level anomalies are classified critical or significant, or
(b) at least 2 location-level anomalies are classified critical or
significant, or (c) the total-revenue z-score has absolute value strictly
greater than 2 and at least one category- or location-level anomaly
classified critical or significant is present; otherwise it is false. -/
theorem c1_theorem (f : DetectorInput) (b : Baselines) :
    (detect_daily_anomalies f b).is_true_anomaly = true ↔
      2 ≤ ((detect_daily_anomalies f b).category_anomalies.filter fun x =>
            isCriticalOrSignificant x.classification).length
      ∨ 2 ≤ ((detect_daily_anomalies f b).location_anomalies.filter fun x =>
            isCriticalOrSignificant x.classification).length
      ∨ ((∃ z, (detect_daily_anomalies f b).total_revenue_z = some z ∧ 2 < |z|)
          ∧ (1 ≤ ((detect_daily_anomalies f b).category_anomalies.filter fun x =>
                isCriticalOrSignificant x.classification).length
             ∨ 1 ≤ ((detect_daily_anomalies f b).location_anomalies.filter fun x =>
                isCriticalOrSignificant x.classification).length)) := by
  rw [detect_is_true_anomaly]
  exact check_multidimensional_iff _

/-- C3: `classify_anomaly` realises exactly the four strict absolute-value
bands — critical for `|z| > 3`, significant for `2 < |z| ≤ 3`, minor for
`1.5 < |z| ≤ 2`, normal for `|z| ≤ 1.5` — and in particular the boundary
values 3, 2 and 1.5 fall in the lower band (strict `>`), while 3.01, 2.01
and 1.51 fall in the upper one. -/
theorem c3_theorem :
    (∀ z : ℚ,
      (classify_anomaly z = Severity.critical_anomaly ↔ 3 < |z|) ∧
      (classify_anomaly z = Severity.significant_anomaly ↔ 2 < |z| ∧ |z| ≤ 3) ∧
      (classify_anomaly z = Severity.minor_anomaly ↔ 3/2 < |z| ∧ |z| ≤ 2) ∧
      (classify_anomaly z = Severity.normal ↔ |z| ≤ 3/2)) ∧
    classify_anomaly 3 = Severity.significant_anomaly ∧
    classify_anomaly (301/100) = Severity.critical_anomaly ∧
    classify_anomaly 2 = Severity.minor_anomaly ∧
    classify_anomaly (201/100) = Severity.significant_anomaly ∧
    classify_anomaly (3/2) = Severity.normal ∧
    classify_anomaly (151/100) = Severity.minor_anomaly := by
  refine ⟨fun z => ?_, ?_, ?_, ?_, ?_, ?_, ?_⟩
  · unfold classify_anomaly
    split_ifs with h1 h2 h3 <;>
      refine ⟨?_, ?_, ?_, ?_⟩ <;>
      simp_all <;>
      try linarith
    intro _
    linarith
  all_goals
    simp only [classify_anomaly, abs_of_nonneg (by norm_num : (0:ℚ) ≤ 3),
      abs_of_nonneg (by norm_num : (0:ℚ) ≤ 301/100),
      abs_of_nonneg (by norm_num : (0:ℚ) ≤ 2),
      abs_of_nonneg (by norm_num : (0:ℚ) ≤ 201/100),
      abs_of_nonneg (by norm_num : (0:ℚ) ≤ 3/2),
      abs_of_nonneg (by norm_num : (0:ℚ) ≤ 151/100)]
  all_goals norm_num

/-- C4, counterexample: the claimed identity `zScore(mean + k·std, mean, std)
= k` for EVERY k fails at mean 0, std 1, k = 0.001: the z-score is rounded to
two decimals, giving 0 rather than 0.001. -/
theorem c4_counterexample :
    calculate_z_score (0 + (1/1000) * 1) 0 1 ≠ (1/1000 : ℚ) := by
  norm_num [calculate_z_score, round2, roundHalfToEven, ratFloor]

/-- C4 (amended): `calculate_z_score` equals `(observed − mean)/std` rounded
to two decimals when std ≠ 0 and exactly 0 when std = 0; consequently
`zScore(mean + k·std, mean, std)` equals k ROUNDED TO TWO DECIMALS (so
equals k itself exactly when k is expressible with at most two decimal
places, k = j/100), and `zScore(x, mean, 0) = 0` for every x. -/
theorem c4_theorem :
    (∀ value mean std : ℚ, std ≠ 0 →
        calculate_z_score value mean std = round2 ((value - mean) / std)) ∧
    (∀ value mean : ℚ, calculate_z_score value mean 0 = 0) ∧
    (∀ mean std k : ℚ, std ≠ 0 →
        calculate_z_score (mean + k * std) mean std = round2 k) ∧
    (∀ mean std : ℚ, ∀ j : ℤ, std ≠ 0 →
        calculate_z_score (mean + ((j : ℚ)/100) * std) mean std = (j : ℚ)/100) := by
  refine ⟨?_, ?_, ?_, ?_⟩
  · intro v m s hs
    simp [calculate_z_score, hs]
  · intro v m
    simp [calculate_z_score]
  · intro m s k hs
    have h : (m + k * s - m) / s = k := by field_simp
    simp [calculate_z_score, hs, h]
  · intro m s j hs
    have h : (m + ((j : ℚ)/100) * s - m) / s = (j : ℚ)/100 := by
      field_simp
      ring
    simp [calculate_z_score, hs, h, round2_int_div]

/-- C4, witness: the amended theorem applied at mean 4, std 2, k = 1.5
(= 150/100). -/
theorem c4_witness :
    calculate_z_score 10 4 2 = round2 ((10 - 4) / 2) ∧
    calculate_z_score 7 4 0 = 0 ∧
    calculate_z_score (4 + (3/2) * 2) 4 2 = round2 (3/2) ∧
    calculate_z_score (4 + ((150 : ℤ) : ℚ)/100 * 2) 4 2 = ((150 : ℤ) : ℚ)/100 :=
  ⟨c4_theorem.1 10 4 2 (by norm_num),
   c4_theorem.2.1 7 4,
   c4_theorem.2.2.1 4 2 (3/2) (by norm_num),
   c4_theorem.2.2.2 4 2 150 (by norm_num)⟩

/-- C9: the surge and drought detectors are total functions (they are Lean
functions, so no input can raise): a zero baseline mean short-circuits to the
degenerate `is_surge = false` / `is_drought = false` result without dividing,
and for a nonzero mean `is_surge` holds exactly when `observed / mean`
reaches the surge threshold (default 2.0) while `is_drought` holds exactly
when `observed / mean` is at or below the drought threshold (default 0.5). -/
theorem c9_theorem :
    (∀ (c : String) (v : ℚ) (bl : DimBaseline) (t : ℚ), bl.mean = 0 →
        detect_category_surge c v bl t = SurgeResult.degenerate ∧
        (detect_category_surge c v bl t).is_surge = false) ∧
    (∀ (c : String) (v : ℚ) (bl : DimBaseline) (t : ℚ), bl.mean ≠ 0 →
        ((detect_category_surge c v bl t).is_surge = true ↔ t ≤ v / bl.mean)) ∧
    (∀ (c : String) (v : ℚ) (bl : DimBaseline) (t : ℚ), bl.mean = 0 →
        detect_category_drought c v bl t = DroughtResult.degenerate ∧
        (detect_category_drought c v bl t).is_drought = false) ∧
    (∀ (c : String) (v : ℚ) (bl : DimBaseline) (t : ℚ), bl.mean ≠ 0 →
        ((detect_category_drought c v bl t).is_drought = true ↔ v / bl.mean ≤ t)) ∧
    default_surge_threshold = 2 ∧ default_drought_threshold = 1/2 := by
  refine ⟨?_, ?_, ?_, ?_, rfl, rfl⟩
  · intro c v bl t h
    simp [detect_category_surge, h, SurgeResult.is_surge]
  · intro c v bl t h
    simp [detect_category_surge, h, SurgeResult.is_surge]
  · intro c v bl t h
    simp [detect_category_drought, h, DroughtResult.is_drought]
  · intro c v bl t h
    simp [detect_category_drought, h, DroughtResult.is_drought]

/-- C9, witness: the theorem applied at concrete inputs — zero mean gives the
degenerate result, 10 against a mean of 5 is a 2x surge, 2 against a mean of
8 is a 0.25x drought. -/
theorem c9_witness :
    detect_category_surge "Candles" 7 { mean := 0, std := 1 } 2
        = SurgeResult.degenerate ∧
    (detect_category_surge "Candles" 10 { mean := 5, std := 1 } 2).is_surge
        = true ∧
    (detect_category_drought "Candles" 2 { mean := 8, std := 1 } (1/2)).is_drought
        = true :=
  ⟨(c9_theorem.1 "Candles" 7 { mean := 0, std := 1 } 2 rfl).1,
   (c9_theorem.2.1 "Candles" 10 { mean := 5, std := 1 } 2 (by norm_num)).mpr
     (by norm_num),
   (c9_theorem.2.2.2.1 "Candles" 2 { mean := 8, std := 1 } (1/2) (by norm_num)).mpr
     (by norm_num)⟩

lemma listSum_map_filter {α : Type} {M : Type} [AddCommMonoid M]
    (l : List α) (p : α → Bool) (f : α → M) :
    ((l.filter p).map f).sum = (l.map fun a => if p a then f a else 0).sum := by
  induction l with
  | nil => rfl
  | cons a t ih => by_cases h : p a <;> simp [List.filter_cons, h, ih]

lemma listSum_finsetSum {α κ M : Type} [AddCommMonoid M]
    (l : List α) (s : Finset κ) (g : κ → α → M) :
    (l.map fun a => ∑ c ∈ s, g c a).sum = ∑ c ∈ s, (l.map (g c)).sum := by
  induction l with
  | nil => simp
  | cons a t ih => simp [ih, Finset.sum_add_distrib]

lemma list_toFinset_dedup {α : Type} [DecidableEq α] (l : List α) :
    l.dedup.toFinset = l.toFinset := by
  ext a
  simp

lemma sum_fibers {α κ M : Type} [AddCommMonoid M] [DecidableEq κ]
    (l : List α) (key : α → κ) (f : α → M) :
    (((l.map key).dedup).map fun c =>
        ((l.filter fun a => decide (key a = c)).map f).sum).sum
      = (l.map f).sum := by
  have h1 : (((l.map key).dedup).map fun c =>
      ((l.filter fun a => decide (key a = c)).map f).sum).sum
      = ∑ c ∈ (l.map key).toFinset,
          ((l.filter fun a => decide (key a = c)).map f).sum := by
    rw [← list_toFinset_dedup (l.map key),
        List.sum_toFinset _ (List.nodup_dedup _)]
  rw [h1]
  have h2 : ∀ c : κ, ((l.filter fun a => decide (key a = c)).map f).sum
      = (l.map fun a => if key a = c then f a else 0).sum := by
    intro c
    rw [listSum_map_filter]
    simp only [decide_eq_true_eq]
  simp only [h2]
  rw [← listSum_finsetSum]
  refine congrArg List.sum (List.map_congr_left ?_)
  intro a ha
  rw [Finset.sum_ite_eq]
  simp [List.mem_map_of_mem _ ha]

/-- C5: whenever `aggregate_day` returns a bundle, the category revenues sum
to the daily total revenue exactly (the model is exact rational arithmetic,
so "within floating tolerance" is exact equality), and the category units sum
to the daily total units. -/
theorem c5_theorem (df : SalesData) (d : ℤ) (b : FeatureBundle)
    (h : aggregate_day df d = some b) :
    (b.by_category.map fun p => p.2.revenue).sum = b.daily_totals.total_revenue ∧
    (b.by_category.map fun p => p.2.units).sum = b.daily_totals.total_units := by
  have hb : buildFeatures df d = b := by
    by_cases hne : (dayRows df d).isEmpty <;> simp [aggregate_day, hne] at h
    exact h
  subst hb
  constructor
  · simp only [buildFeatures, calculate_by_category, calculate_daily_totals,
      List.map_map]
    simpa [categoryMetrics, Function.comp] using
      sum_fibers (dayRows df d) (fun r => r.dept) (fun r => r.turnover)
  · simp only [buildFeatures, calculate_by_category, calculate_daily_totals,
      List.map_map]
    simpa [categoryMetrics, Function.comp] using
      sum_fibers (dayRows df d) (fun r => r.dept) (fun r => r.qty)

/-- C5, witness: the theorem applied to the concrete two-row table. -/
theorem c5_witness :
    ((buildFeatures c5Df 0).by_category.map fun p => p.2.revenue).sum
        = (buildFeatures c5Df 0).daily_totals.total_revenue ∧
    ((buildFeatures c5Df 0).by_category.map fun p => p.2.units).sum
        = (buildFeatures c5Df 0).daily_totals.total_units :=
  c5_theorem c5Df 0 (buildFeatures c5Df 0) (by simp [aggregate_day, dayRows, c5Df])

lemma aggregateRangeGo_eq (df : SalesData) (n : ℕ) :
    ∀ cur : ℤ, aggregateRangeGo df n cur
      = ((List.range n).map fun i : ℕ => cur + (i : ℤ)).filterMap (aggregate_day df) := by
  induction n with
  | zero =>
    intro cur
    simp [aggregateRangeGo]
  | succ n ih =>
    intro cur
    rw [List.range_succ_eq_map]
    simp only [List.map_cons, List.map_map, List.filterMap_cons, Nat.cast_zero,
      add_zero]
    have hcomp : ((fun i : ℕ => cur + (i : ℤ)) ∘ Nat.succ)
        = fun i : ℕ => (cur + 1) + (i : ℤ) := by
      funext i
      simp only [Function.comp_apply, Nat.succ_eq_add_one]
      push_cast
      ring
    rw [hcomp, ← ih (cur + 1)]
    show aggregateRangeGo df (n + 1) cur = _
    rw [aggregateRangeGo]
    cases aggregate_day df cur <;> simp

lemma filterMap_guard_eq_filter_map {α β : Type} (l : List α) (p : α → Bool)
    (g : α → β) :
    (l.filterMap fun a => if p a then none else some (g a))
      = (l.filter fun a => !p a).map g := by
  induction l with
  | nil => rfl
  | cons a t ih => by_cases h : p a <;> simp [List.filter_cons, h, ih]

/-- C6: `aggregate_day` returns the "no data" signal `none` exactly when the
target date has no transactions; and `aggregate_date_range` returns exactly
the bundles of the dates in `[start_date, end_date]` that have data (the
ascending candidate dates, filtered to those with rows, each mapped to its
bundle — dates without data are silently omitted), so the output dates are
strictly increasing (chronological order). -/
theorem c6_theorem (df : SalesData) (d start_date end_date : ℤ) :
    (aggregate_day df d = none ↔ dayRows df d = []) ∧
    aggregate_date_range df start_date end_date
      = ((rangeDates start_date end_date).filter fun a =>
          !(dayRows df a).isEmpty).map (buildFeatures df) ∧
    ((aggregate_date_range df start_date end_date).map
        FeatureBundle.date).Pairwise (· < ·) := by
  have hrange : aggregate_date_range df start_date end_date
      = ((rangeDates start_date end_date).filter fun a =>
          !(dayRows df a).isEmpty).map (buildFeatures df) := by
    rw [aggregate_date_range, aggregateRangeGo_eq]
    rw [show ((List.range (end_date + 1 - start_date).toNat).map
        fun i : ℕ => start_date + (i : ℤ)) = rangeDates start_date end_date from rfl]
    rw [show aggregate_day df = fun a =>
        if (dayRows df a).isEmpty then none else some (buildFeatures df a) from rfl]
    exact filterMap_guard_eq_filter_map _ _ _
  refine ⟨?_, hrange, ?_⟩
  · by_cases hne : (dayRows df d).isEmpty
    · simp [aggregate_day, hne, List.isEmpty_iff.mp hne]
    · simp only [List.isEmpty_eq_true] at hne
      simp [aggregate_day, List.isEmpty_eq_true, hne]
  · rw [hrange, List.map_map]
    rw [show (FeatureBundle.date ∘ buildFeatures df) = fun a => a from rfl]
    rw [List.map_id']
    apply List.Pairwise.filter
    rw [rangeDates]
    rw [List.pairwise_map]
    exact (List.pairwise_lt_range _).imp fun h => by omega

/-- C7: the eviction sweep keeps exactly the day-keyed entries dated at or
after `today − keep_days` (so an entry dated exactly `today − keep_days` is
retained and one dated `today − keep_days − 1` is deleted), never touches
the baselines document (nor the unparsable files), and returns the number
of entries strictly older than the cutoff. -/
theorem c7_theorem (st : CacheState) (today keep_days : ℤ) :
    (∀ (a : ℤ) (b : FeatureBundle),
        (a, b) ∈ (delete_old_cache st today keep_days).1.days ↔
          (a, b) ∈ st.days ∧ today - keep_days ≤ a) ∧
    (delete_old_cache st today keep_days).1.baselines = st.baselines ∧
    (delete_old_cache st today keep_days).1.otherFiles = st.otherFiles ∧
    (delete_old_cache st today keep_days).2
        = (st.days.filter fun e => decide (e.1 < today - keep_days)).length ∧
    (∀ b : FeatureBundle, (today - keep_days, b) ∈ st.days →
        (today - keep_days, b) ∈ (delete_old_cache st today keep_days).1.days) ∧
    (∀ b : FeatureBundle,
        (today - keep_days - 1, b) ∉ (delete_old_cache st today keep_days).1.days) := by
  refine ⟨?_, rfl, rfl, rfl, ?_, ?_⟩
  · intro a b
    simp [delete_old_cache, List.mem_filter, not_lt]
  · intro b hb
    simp [delete_old_cache, List.mem_filter, hb]
  · intro b hb
    simp [delete_old_cache, List.mem_filter] at hb
    omega

/-- C7, witness: sweeping with `today = 100`, `keep_days = 90` (cutoff 10)
retains the entry dated exactly 10 and deletes the one dated 9. -/
theorem c7_witness :
    (10, witnessBundle) ∈ (delete_old_cache c7State 100 90).1.days ∧
    (9, witnessBundle) ∉ (delete_old_cache c7State 100 90).1.days := by
  have T := c7_theorem c7State 100 90
  constructor
  · exact (T.1 10 witnessBundle).mpr ⟨by simp [c7State], by norm_num⟩
  · intro hmem
    have h := ((T.1 9 witnessBundle).mp hmem).2
    omega

lemma applyPuts_keeps_absent (d : ℤ) :
    ∀ (ops : List (ℤ × FeatureBundle)) (st : CacheState),
      (∀ op ∈ ops, op.1 ≠ d) → (∀ e ∈ st.days, e.1 ≠ d) →
      ∀ e ∈ (applyPuts st ops).days, e.1 ≠ d := by
  intro ops
  induction ops with
  | nil =>
    intro st _ hst
    simpa [applyPuts] using hst
  | cons op t ih =>
    intro st h hst
    have hstep : ∀ e ∈ (save_daily_features st op.2 op.1).days, e.1 ≠ d := by
      intro e he
      simp only [save_daily_features, List.mem_cons, List.mem_filter] at he
      rcases he with rfl | ⟨he, _⟩
      · exact h op (List.mem_cons_self _ _)
      · exact hst e he
    have hrest : ∀ op' ∈ t, op'.1 ≠ d := fun op' hop' =>
      h op' (List.mem_cons_of_mem _ hop')
    simpa [applyPuts] using ih (save_daily_features st op.2 op.1) hrest hstep

/-- C8: after `put(d, b)` the cache reports `exists(d)` and `get(d)`
returns exactly `b`; a date never written (no put in the replayed history)
reports absent on both; and a second `put(d, b')` overwrites, after which
`get(d)` returns `b'`. -/
theorem c8_theorem :
    (∀ (st : CacheState) (d : ℤ) (b : FeatureBundle),
        load_daily_features (save_daily_features st b d) d = some b ∧
        has_features (save_daily_features st b d) d = true) ∧
    (∀ (ops : List (ℤ × FeatureBundle)) (d : ℤ),
        (∀ op ∈ ops, op.1 ≠ d) →
          load_daily_features (applyPuts emptyCache ops) d = none ∧
          has_features (applyPuts emptyCache ops) d = false) ∧
    (∀ (st : CacheState) (d : ℤ) (b b' : FeatureBundle),
        load_daily_features
            (save_daily_features (save_daily_features st b d) b' d) d
          = some b') := by
  have hput : ∀ (st : CacheState) (d : ℤ) (b : FeatureBundle),
      load_daily_features (save_daily_features st b d) d = some b ∧
      has_features (save_daily_features st b d) d = true := by
    intro st d b
    constructor <;>
      simp [load_daily_features, has_features, save_daily_features, List.find?]
  refine ⟨hput, ?_, fun st d b b' => (hput _ d b').1⟩
  intro ops d h
  have habsent : ∀ e ∈ (applyPuts emptyCache ops).days, e.1 ≠ d :=
    applyPuts_keeps_absent d ops emptyCache h (by simp [emptyCache])
  have hfind : ((applyPuts emptyCache ops).days.find?
      fun e => decide (e.1 = d)) = none := by
    rw [List.find?_eq_none]
    intro e he
    simp [habsent e he]
  constructor <;> simp [load_daily_features, has_features, hfind]

/-- C8, witness: the theorem applied to a concrete history — a put at date 1
leaves date 0 absent, a put at date 0 is readable, and a second put at
date 0 overwrites. -/
theorem c8_witness :
    load_daily_features (save_daily_features emptyCache witnessBundle 0) 0
        = some witnessBundle ∧
    load_daily_features (applyPuts emptyCache [(1, witnessBundle)]) 0 = none ∧
    load_daily_features
        (save_daily_features
          (save_daily_features c7State (buildFeatures c5Df 1) 0)
          witnessBundle 0) 0
      = some witnessBundle :=
  ⟨(c8_theorem.1 emptyCache 0 witnessBundle).1,
   (c8_theorem.2.1 [(1, witnessBundle)] 0 (by norm_num)).1,
   c8_theorem.2.2 c7State 0 (buildFeatures c5Df 1) witnessBundle⟩

lemma mean_perm {l l' : List ℚ} (h : l.Perm l') : mean l = mean l' := by
  unfold mean
  rw [h.sum_eq, h.length_eq]

lemma sorted_mergeSort_le (m : List ℚ) :
    (m.mergeSort fun a b => decide (a ≤ b)).Sorted (· ≤ ·) := by
  have h := @List.sorted_mergeSort ℚ (fun a b => decide (a ≤ b))
    (fun (a b c : ℚ) hab hbc => by
      simp only [decide_eq_true_eq] at hab hbc ⊢
      exact le_trans hab hbc)
    (fun a b : ℚ => by
      rcases le_total a b with h | h <;> simp [h])
    m
  exact h.imp fun hab => by simpa using hab

lemma median_perm {l l' : List ℚ} (h : l.Perm l') : median l = median l' := by
  have hs : l.mergeSort (fun a b => decide (a ≤ b))
      = l'.mergeSort (fun a b => decide (a ≤ b)) := by
    apply List.eq_of_perm_of_sorted (r := (· ≤ ·))
    · exact ((l.mergeSort_perm _).trans h).trans (l'.mergeSort_perm _).symm
    · exact sorted_mergeSort_le l
    · exact sorted_mergeSort_le l'
  unfold median
  rw [hs, h.length_eq]

lemma mem_rangeDates {s e a : ℤ} : a ∈ rangeDates s e ↔ s ≤ a ∧ a ≤ e := by
  simp only [rangeDates, List.mem_map, List.mem_range]
  constructor
  · rintro ⟨i, hi, rfl⟩
    omega
  · rintro ⟨h1, h2⟩
    refine ⟨(a - s).toNat, ?_, ?_⟩ <;> omega

lemma nodup_rangeDates (s e : ℤ) : (rangeDates s e).Nodup := by
  refine List.Nodup.map ?_ (List.nodup_range _)
  intro a b hab
  have h : s + (a : ℤ) = s + (b : ℤ) := hab
  omega

lemma hasData_iff (df : SalesData) (a : ℤ) :
    hasData df a = true ↔ ∃ r ∈ df, r.saleDate = a := by
  simp [hasData, dayRows, List.isEmpty_eq_false, List.filter_eq_nil_iff]

lemma dateRevenue_filter (df : SalesData) (W : ℤ → Bool) (a : ℤ)
    (hW : W a = true) :
    dateRevenue (df.filter fun r => W r.saleDate) a = dateRevenue df a := by
  unfold dateRevenue
  rw [List.filter_filter]
  refine congrArg _ (congrArg _ (List.filter_congr ?_))
  intro r _
  by_cases h : r.saleDate = a
  · simp [h, hW]
  · simp [h]

lemma mem_distinctDates_filter (df : SalesData) (W : ℤ → Bool) (a : ℤ) :
    a ∈ distinctDates (df.filter fun r => W r.saleDate)
      ↔ W a = true ∧ hasData df a = true := by
  simp only [distinctDates, List.mem_dedup, List.mem_map, List.mem_filter,
    hasData_iff]
  constructor
  · rintro ⟨r, ⟨hrdf, hW⟩, rfl⟩
    exact ⟨hW, r, hrdf, rfl⟩
  · rintro ⟨hW, r, hrdf, rfl⟩
    exact ⟨r, ⟨hrdf, hW⟩, rfl⟩

lemma dailyRevenues_window_perm (df : SalesData) (W : ℤ → Bool) (D : List ℤ)
    (hD : D.Nodup) (hmem : ∀ a : ℤ, a ∈ D ↔ W a = true) :
    (dailyRevenues (df.filter fun r => W r.saleDate)).Perm
      (windowRevenues df D) := by
  have hdates : (distinctDates (df.filter fun r => W r.saleDate)).Perm
      (D.filter fun a => hasData df a) := by
    have hnd : (distinctDates (df.filter fun r => W r.saleDate)).Nodup :=
      List.nodup_dedup _
    refine (List.perm_ext_iff_of_nodup hnd (hD.filter _)).mpr ?_
    intro a
    rw [mem_distinctDates_filter, List.mem_filter, hmem]
  have hfun : dailyRevenues (df.filter fun r => W r.saleDate)
      = (distinctDates (df.filter fun r => W r.saleDate)).map (dateRevenue df) := by
    unfold dailyRevenues
    refine List.map_congr_left ?_
    intro a ha
    exact dateRevenue_filter df W a ((mem_distinctDates_filter df W a).mp ha).1
  rw [hfun, windowRevenues]
  exact hdates.map _

lemma window_isEmpty_eq (df : SalesData) (W : ℤ → Bool) (D : List ℤ)
    (hD : D.Nodup) (hmem : ∀ a : ℤ, a ∈ D ↔ W a = true) :
    (df.filter fun r => W r.saleDate).isEmpty = (windowRevenues df D).isEmpty := by
  have hlen := (dailyRevenues_window_perm df W D hD hmem).length_eq
  by_cases h : (df.filter fun r => W r.saleDate) = []
  · rw [h] at hlen ⊢
    simp only [dailyRevenues, distinctDates, List.map_nil, List.dedup_nil,
      List.length_nil] at hlen
    have hw : windowRevenues df D = [] := by
      rw [← List.length_eq_zero]
      omega
    rw [hw]
    rfl
  · have h2 : dailyRevenues (df.filter fun r => W r.saleDate) ≠ [] := by
      simp only [dailyRevenues, distinctDates, ne_eq, List.map_eq_nil_iff,
        List.dedup_eq_nil]
      exact h
    have h3 : windowRevenues df D ≠ [] := by
      simp only [ne_eq, ← List.length_eq_zero] at h2 ⊢
      omega
    have e1 : (df.filter fun r => W r.saleDate).isEmpty = false := by
      simp [List.isEmpty_eq_false, h]
    have e2 : (windowRevenues df D).isEmpty = false := by
      simp [List.isEmpty_eq_false, h3]
    rw [e1, e2]

lemma window_mean_eq (df : SalesData) (W : ℤ → Bool) (D : List ℤ)
    (hD : D.Nodup) (hmem : ∀ a : ℤ, a ∈ D ↔ W a = true) :
    (if (df.filter fun r => W r.saleDate).isEmpty then (none : Option ℚ)
     else some (mean (dailyRevenues (df.filter fun r => W r.saleDate))))
    = if (windowRevenues df D).isEmpty then none
      else some (mean (windowRevenues df D)) := by
  rw [window_isEmpty_eq df W D hD hmem]
  by_cases h : (windowRevenues df D).isEmpty <;>
    simp [h, mean_perm (dailyRevenues_window_perm df W D hD hmem)]

lemma window_median_eq (df : SalesData) (W : ℤ → Bool) (D : List ℤ)
    (hD : D.Nodup) (hmem : ∀ a : ℤ, a ∈ D ↔ W a = true) :
    (if (df.filter fun r => W r.saleDate).isEmpty then (none : Option ℚ)
     else some (median (dailyRevenues (df.filter fun r => W r.saleDate))))
    = if (windowRevenues df D).isEmpty then none
      else some (median (windowRevenues df D)) := by
  rw [window_isEmpty_eq df W D hD hmem]
  by_cases h : (windowRevenues df D).isEmpty <;>
    simp [h, median_perm (dailyRevenues_window_perm df W D hD hmem)]

/-- C2, counterexample: with a single sale dated `targetDate − 7`, the claim
says the 7-day average covers dates `targetDate−7 .. targetDate−1` and hence
equals 100, but the code's window (`date > targetDate−7`) is empty and the
sub-result is omitted. -/
theorem c2_counterexample :
    (historical_context c2Df 0).sevenDayAverage = none ∧
    (claimHistoricalContext c2Df 0).sevenDayAverage = some 100 ∧
    historical_context c2Df 0 ≠ claimHistoricalContext c2Df 0 := by
  have h1 : (historical_context c2Df 0).sevenDayAverage = none := by
    norm_num [historical_context, c2Df]
  have h2 : (claimHistoricalContext c2Df 0).sevenDayAverage = some 100 := by
    have hr : rangeDates (-7) (-1) = [-7, -6, -5, -4, -3, -2, -1] := by rfl
    norm_num [claimHistoricalContext, specContextOn, hr, windowRevenues,
      hasData, dayRows, c2Df, dateRevenue, mean]
  refine ⟨h1, h2, fun h => ?_⟩
  rw [h] at h1
  rw [h1] at h2
  exact Option.noConfusion h2

/-- C2 (amended): for every table and target date, the historical context's
7-day average and median are computed over the daily revenues of the dates
with data among the 6 calendar dates `targetDate−6 .. targetDate−1`
(the code's window `targetDate−7 < date < targetDate`), the 30-day
average/median over `targetDate−29 .. targetDate−1`, and the same-weekday
median over the same-weekday dates within the 55 days strictly before the
target date (7 candidate same-weekday dates); each sub-result is omitted
entirely (not zero-filled) when its date range has no data. -/
theorem c2_theorem (df : SalesData) (d : ℤ) :
    historical_context df d = amendedHistoricalContext df d := by
  have hmem7 : ∀ a : ℤ, a ∈ rangeDates (d - 6) (d - 1) ↔
      (decide (d - 7 < a) && decide (a < d)) = true := by
    intro a
    simp only [mem_rangeDates, Bool.and_eq_true, decide_eq_true_eq]
    omega
  have hmem30 : ∀ a : ℤ, a ∈ rangeDates (d - 29) (d - 1) ↔
      (decide (d - 30 < a) && decide (a < d)) = true := by
    intro a
    simp only [mem_rangeDates, Bool.and_eq_true, decide_eq_true_eq]
    omega
  have hmemw : ∀ a : ℤ,
      a ∈ ((rangeDates (d - 55) (d - 1)).filter fun a => decide (a % 7 = d % 7)) ↔
      (decide (d - 56 < a) && decide (a < d) && decide (a % 7 = d % 7)) = true := by
    intro a
    simp only [List.mem_filter, mem_rangeDates, Bool.and_eq_true,
      decide_eq_true_eq]
    omega
  have h7m := window_mean_eq df (fun a => decide (d - 7 < a) && decide (a < d))
    (rangeDates (d - 6) (d - 1)) (nodup_rangeDates _ _) hmem7
  have h7md := window_median_eq df (fun a => decide (d - 7 < a) && decide (a < d))
    (rangeDates (d - 6) (d - 1)) (nodup_rangeDates _ _) hmem7
  have h30m := window_mean_eq df (fun a => decide (d - 30 < a) && decide (a < d))
    (rangeDates (d - 29) (d - 1)) (nodup_rangeDates _ _) hmem30
  have h30md := window_median_eq df (fun a => decide (d - 30 < a) && decide (a < d))
    (rangeDates (d - 29) (d - 1)) (nodup_rangeDates _ _) hmem30
  have hwmd := window_median_eq df
    (fun a => decide (d - 56 < a) && decide (a < d) && decide (a % 7 = d % 7))
    ((rangeDates (d - 55) (d - 1)).filter fun a => decide (a % 7 = d % 7))
    ((nodup_rangeDates _ _).filter _) hmemw
  simp only [historical_context, amendedHistoricalContext, specContextOn,
    HistoricalContext.mk.injEq]
  exact ⟨h7m, h7md, h30m, h30md, hwmd⟩

lemma calculate_z_score_float_nan (v m : PFloat) :
    calculate_z_score_float v m PFloat.nan = PFloat.nan := by
  cases v <;> cases m <;> rfl

lemma classify_anomaly_float_nan :
    classify_anomaly_float PFloat.nan = Severity.normal := rfl

/-- C10: a dimension whose baseline window holds exactly one distinct date of
data gets a NaN sample standard deviation; the `std == 0` guard (IEEE
equality) does not fire on NaN, so the z-score is NaN; `classify` sends NaN to
`normal`; and the detector — a total function, so it cannot raise — never
lists such a category, location, or the total-revenue dimension as anomalous. -/
theorem c10_theorem :
    (∀ rows : List Row, (distinctDates rows).length = 1 →
        (baselineOfRows rows).std = PFloat.nan) ∧
    PFloat.beq PFloat.nan (PFloat.num 0) = false ∧
    (∀ v m : PFloat, calculate_z_score_float v m PFloat.nan = PFloat.nan) ∧
    classify_anomaly_float PFloat.nan = Severity.normal ∧
    (∀ (f : DetectorInput) (b : BaselinesF) (c : String) (bl : DimBaselineF),
        b.by_category.lookup c = some bl → bl.std = PFloat.nan →
        ∀ e ∈ (detect_daily_anomalies_float f b).category_anomalies,
          e.category ≠ c) ∧
    (∀ (f : DetectorInput) (b : BaselinesF) (lc : String) (bl : DimBaselineF),
        b.by_location.lookup lc = some bl → bl.std = PFloat.nan →
        ∀ e ∈ (detect_daily_anomalies_float f b).location_anomalies,
          e.location ≠ lc) ∧
    (∀ (f : DetectorInput) (b : BaselinesF) (bl : DimBaselineF) (dt : DailyTotals),
        b.total_revenue = some bl → bl.std = PFloat.nan →
        f.daily_totals = some dt →
        (detect_daily_anomalies_float f b).total_revenue_z = some PFloat.nan ∧
        "total_revenue" ∉ (detect_daily_anomalies_float f b).anomaly_types) := by
  refine ⟨?_, rfl, calculate_z_score_float_nan, rfl, ?_, ?_, ?_⟩
  · intro rows h
    simp [baselineOfRows, seriesStd, dailyRevenues, List.length_map, h]
  · intro f b c bl hlookup hstd e he
    replace he : e ∈ (if f.by_category.isEmpty || b.by_category.isEmpty then []
        else categoryAnomaliesF f.by_category b.by_category) := he
    split at he
    · simp at he
    · rw [categoryAnomaliesF, List.mem_filterMap] at he
      obtain ⟨p, hp, hsome⟩ := he
      intro hec
      split at hsome
      · exact Option.noConfusion hsome
      · rename_i bl' heq
        dsimp only at hsome
        split at hsome
        · exact Option.noConfusion hsome
        · rename_i hcls
          injection hsome with h
          subst h
          by_cases hpc : p.1 = c
          · rw [hpc, hlookup] at heq
            injection heq with hbl
            subst hbl
            rw [hstd, calculate_z_score_float_nan] at hcls
            exact hcls classify_anomaly_float_nan
          · exact hpc hec
  · intro f b lc bl hlookup hstd e he
    replace he : e ∈ (if f.by_location.isEmpty || b.by_location.isEmpty then []
        else locationAnomaliesF f.by_location b.by_location) := he
    split at he
    · simp at he
    · rw [locationAnomaliesF, List.mem_filterMap] at he
      obtain ⟨p, hp, hsome⟩ := he
      intro hec
      split at hsome
      · exact Option.noConfusion hsome
      · rename_i bl' heq
        dsimp only at hsome
        split at hsome
        · exact Option.noConfusion hsome
        · rename_i hcls
          injection hsome with h
          subst h
          by_cases hpc : p.1 = lc
          · rw [hpc, hlookup] at heq
            injection heq with hbl
            subst hbl
            rw [hstd, calculate_z_score_float_nan] at hcls
            exact hcls classify_anomaly_float_nan
          · exact hpc hec
  · intro f b bl dt htot hstd hdt
    constructor
    · show (match b.total_revenue, f.daily_totals with
        | some bl, some dt =>
            some (calculate_z_score_float (.num dt.total_revenue) bl.mean bl.std)
        | _, _ => none) = some PFloat.nan
      rw [htot, hdt]
      dsimp only
      rw [hstd, calculate_z_score_float_nan]
    · show "total_revenue" ∉ (if (match
          (match b.total_revenue, f.daily_totals with
            | some bl, some dt =>
                some (calculate_z_score_float (.num dt.total_revenue) bl.mean bl.std)
            | _, _ => none) with
          | some z => decide (classify_anomaly_float z ≠ Severity.normal)
          | none => false) then ["total_revenue"] else [])
      rw [htot, hdt]
      dsimp only
      rw [hstd, calculate_z_score_float_nan]
      simp [classify_anomaly_float_nan]

/-- C10, witness: the theorem applied to a one-date baseline window and to a
detector run whose baselines carry NaN stds — despite huge observed values,
nothing is flagged. -/
theorem c10_witness :
    (baselineOfRows c10Rows).std = PFloat.nan ∧
    calculate_z_score_float (.num 500) (.num 0) PFloat.nan = PFloat.nan ∧
    (∀ e ∈ (detect_daily_anomalies_float c10Features c10Baselines).category_anomalies,
        e.category ≠ "Bakery") ∧
    (detect_daily_anomalies_float c10Features c10Baselines).total_revenue_z
        = some PFloat.nan ∧
    "total_revenue" ∉
      (detect_daily_anomalies_float c10Features c10Baselines).anomaly_types :=
  ⟨c10_theorem.1 c10Rows (by decide),
   c10_theorem.2.2.1 (.num 500) (.num 0),
   c10_theorem.2.2.2.2.1 c10Features c10Baselines "Bakery"
     { mean := .num 0, std := .nan } rfl rfl,
   (c10_theorem.2.2.2.2.2.2 c10Features c10Baselines
     { mean := .num 0, std := .nan }
     { total_revenue := 500, total_units := 0, transaction_count := 0,
       line_items := 0, unique_products := 0, unique_categories := 0,
       avg_ticket := 0 } rfl rfl rfl).1,
   (c10_theorem.2.2.2.2.2.2 c10Features c10Baselines
     { mean := .num 0, std := .nan }
     { total_revenue := 500, total_units := 0, transaction_count := 0,
       line_items := 0, unique_products := 0, unique_categories := 0,
       avg_ticket := 0 } rfl rfl rfl).2⟩
